import Mathlib

/-!
Verification of the lerobot dual-camera IBR (image background removal)
vision pipeline: a shallow embedding of
`src/lerobot/vision/ibr_processor.py`, `src/lerobot/vision/yolo26_service.py`,
`src/lerobot/vision/ibr_preprocessor.py`, `src/lerobot/vision/camera_roles.py`
and `src/lerobot/common/vision_config.py`, together with theorems settling
the specification claims about frame-skip scheduling, mask compositing,
failure fallback, mask caching, inference parameters, lock scope,
brightness passthrough and array aliasing.

Images are height-by-width-by-3 uint8 arrays modelled as total functions
`Nat → Nat → Nat → Nat` (row, column, channel) with the height and width
carried alongside; masks are single-channel `Nat → Nat → Nat`.  Floating
point configuration values are modelled as rationals; the two genuinely
floating-point transforms (the non-neutral gamma/contrast/brightness path
and CLAHE, both irrelevant to all claims) are kept as explicit function
parameters bundled in `Ext`.
-/

namespace LerobotIBR

/-- Single-channel array (a numpy `(h, w)` array): `data row col`. -/
structure NMat where
  h : Nat
  w : Nat
  data : Nat → Nat → Nat

/-- Three-channel image (a numpy `(h, w, 3)` array): `data row col chan`. -/
structure NImg where
  h : Nat
  w : Nat
  data : Nat → Nat → Nat → Nat

/-- Pixel-wise equality of two images on their (shared) extent. -/
def NImg.EqOn (a b : NImg) : Prop :=
  a.h = b.h ∧ a.w = b.w ∧
    ∀ y < a.h, ∀ x < a.w, ∀ c < 3, a.data y x c = b.data y x c

/-- The `np.asarray(image, dtype=np.uint8).copy()`: contents-preserving copy. -/
def npCopy (a : NImg) : NImg := a

/-- A mask is binary when every in-range value is 0 or 255
(`mask: HW uint8, 0 or 255`). -/
def NMat.Binary (m : NMat) : Prop :=
  ∀ y < m.h, ∀ x < m.w, m.data y x = 0 ∨ m.data y x = 255

instance (m : NMat) : Decidable m.Binary :=
  inferInstanceAs
    (Decidable (∀ y < m.h, ∀ x < m.w, m.data y x = 0 ∨ m.data y x = 255))

/-- The `CameraRole` enum from `camera_roles.py`: GRIPPER or TOP. -/
inductive CameraRole where
  | GRIPPER
  | TOP
deriving DecidableEq, Repr

/-- The `VisionConfig` dataclass from `vision_config.py`, with its default
field values. Floats are rationals, Python ints are `Int`. -/
structure VisionConfig where
  gripper_use_ibr : Bool := true
  top_use_ibr : Bool := false
  segmentation_model_path : String := ""
  segmentation_confidence : ℚ := 35/100
  segmentation_iou_threshold : ℚ := 1/2
  segmentation_frame_skip : Int := 2
  device : String := "auto"
  rerun_show_processed : Bool := true
  gripper_camera_key : String := "gripper"
  top_camera_key : String := "top"
  top_brightness_stabilize : Bool := false
  top_brightness_clip_limit : ℚ := 2
  top_brightness_tile_size : Int := 8
  top_brightness : ℚ := 1
  top_contrast : ℚ := 1
  top_gamma : ℚ := 1
  gripper_brightness_stabilize : Bool := false
  gripper_brightness_clip_limit : ℚ := 2
  gripper_brightness_tile_size : Int := 8
  gripper_brightness : ℚ := 1
  gripper_contrast : ℚ := 1
  gripper_gamma : ℚ := 1

/-- The `get_camera_role` from `camera_roles.py`. -/
def get_camera_role (camera_key : String) (vision_config : VisionConfig) :
    Option CameraRole :=
  if camera_key = vision_config.gripper_camera_key then some .GRIPPER
  else if camera_key = vision_config.top_camera_key then some .TOP
  else none

/-- The `BACKGROUND_COLOR = (0, 0, 0)` from `ibr_processor.py`. -/
def BACKGROUND_COLOR : Nat → Nat := fun _ => 0

/-- The `FALLBACK_WARN_EVERY_N_FRAMES = 30` from `ibr_processor.py`. -/
def FALLBACK_WARN_EVERY_N_FRAMES : Nat := 30

/-- numpy boolean-mask assignment `out[cond] = bg` on an HWC image with a
2-d condition and a 3-vector right-hand side: rows/columns where the
condition holds get all three channels overwritten by `bg`. -/
def npMaskedFill (out : NImg) (cond : Nat → Nat → Bool) (bg : Nat → Nat) :
    NImg :=
  { out with data := fun y x c => if cond y x then bg c else out.data y x c }

/-- The `DualCameraIBRProcessor._apply_mask`: copy the image, then
`out[mask == 0] = bg` with the fixed background colour. -/
def applyMask (image : NImg) (mask : NMat) : NImg :=
  npMaskedFill (npCopy image) (fun y x => mask.data y x == 0) BACKGROUND_COLOR

/-- The `IBRPreprocessor.remove_background`: copy the image, then
`out[mask == 0] = bg` with the configured background colour
`(bg0, bg1, bg2)`. -/
def remove_background (bg0 bg1 bg2 : Nat) (image : NImg) (mask : NMat) :
    NImg :=
  npMaskedFill (npCopy image) (fun y x => mask.data y x == 0)
    (fun c => if c = 0 then bg0 else if c = 1 then bg1 else bg2)

/-- Python's `abs` on rationals. -/
def ratAbs (q : ℚ) : ℚ := if q < 0 then -q else q

/-- The two operations of the pipeline that are genuinely floating-point
library calls, kept as parameters: `bcg` is the non-neutral branch of
`_apply_brightness_contrast_gamma` (numpy float64 gamma/contrast/
brightness arithmetic) and `clahe` is the cv2 LAB-space CLAHE block of
`_stabilize_brightness`.  No claim depends on their behaviour. -/
structure Ext where
  bcg : ℚ → ℚ → ℚ → NImg → NImg
  clahe : ℚ → Int → NImg → NImg

/-- The `DualCameraIBRProcessor._apply_brightness_contrast_gamma`: returns the
image untouched when brightness, contrast and gamma are all within 1e-6 of
the neutral value 1.0, and otherwise runs the float64 pipeline (modelled
by `ext.bcg`; the model fixes 3-channel HWC images, so the ndim guard of
the source never fires). -/
def applyBrightnessContrastGamma (ext : Ext) (image : NImg)
    (brightness contrast gamma : ℚ) : NImg :=
  if ratAbs (brightness - 1) < 1/1000000 ∧ ratAbs (contrast - 1) < 1/1000000 ∧
      ratAbs (gamma - 1) < 1/1000000 then
    image
  else
    ext.bcg brightness contrast gamma image

/-- The per-role brightness parameters `_stabilize_brightness` selects:
`(brightness, contrast, gamma, enabled, clip, tile)`; the TOP role gets
the `top_*` fields, every other role the `gripper_*` fields. -/
def roleBrightnessParams (cfg : VisionConfig) (camera_role : CameraRole) :
    ℚ × ℚ × ℚ × Bool × ℚ × Int :=
  match camera_role with
  | .TOP =>
      (cfg.top_brightness, cfg.top_contrast, cfg.top_gamma,
       cfg.top_brightness_stabilize, cfg.top_brightness_clip_limit,
       cfg.top_brightness_tile_size)
  | .GRIPPER =>
      (cfg.gripper_brightness, cfg.gripper_contrast, cfg.gripper_gamma,
       cfg.gripper_brightness_stabilize, cfg.gripper_brightness_clip_limit,
       cfg.gripper_brightness_tile_size)

/-- The `DualCameraIBRProcessor._stabilize_brightness` (with cv2 importable,
on a 3-channel image): copy, apply manual brightness/contrast/gamma, then
CLAHE on the luminance channel if enabled, with clip clamped to [0, 10]
and tile to [2, 32]. -/
def stabilizeBrightness (ext : Ext) (cfg : VisionConfig) (image : NImg)
    (camera_role : CameraRole) : NImg :=
  let p := roleBrightnessParams cfg camera_role
  let out := npCopy image
  let out := applyBrightnessContrastGamma ext out p.1 p.2.1 p.2.2.1
  if !p.2.2.2.1 then out
  else
    let clip := max 0 (min 10 p.2.2.2.2.1)
    let tile := max 2 (min 32 p.2.2.2.2.2)
    ext.clahe clip tile out

/-- Mutable state of a `DualCameraIBRProcessor` instance: the frame
counter, the cached mask slot (a single `_last_mask` field) and the
fallback warning counter. -/
structure ProcState where
  frameCount : Nat
  lastMask : Option NMat
  fallbackWarnCount : Nat

/-- The `DualCameraIBRProcessor.__init__`: counter 0, no cached mask, no
recorded fallback warnings. -/
def ProcState.init : ProcState :=
  { frameCount := 0, lastMask := none, fallbackWarnCount := 0 }

/-- The effective skip factor `max(1, config.segmentation_frame_skip)`
used by `_should_run_segmentation`, as a natural number. -/
def effectiveSkip (cfg : VisionConfig) : Nat :=
  (max 1 cfg.segmentation_frame_skip).toNat

/-- The `DualCameraIBRProcessor._should_run_segmentation`: increment the frame
counter, then report whether `(frame_count - 1) % skip == 0`. -/
def shouldRunSegmentation (cfg : VisionConfig) (s : ProcState) :
    Bool × ProcState :=
  let skip := effectiveSkip cfg
  let s1 := { s with frameCount := s.frameCount + 1 }
  (decide ((s1.frameCount - 1) % skip = 0), s1)

/-- The IBR gate of `process`: GRIPPER uses IBR iff `gripper_use_ibr`,
TOP iff `top_use_ibr`. -/
def useIBR (cfg : VisionConfig) (camera_role : CameraRole) : Bool :=
  (camera_role = CameraRole.GRIPPER && cfg.gripper_use_ibr)
    || (camera_role = CameraRole.TOP && cfg.top_use_ibr)

/-- Result of one `process` call: the returned image, whether
`self._service.segment` was invoked during the call, and the instance
state after the call. -/
structure ProcResult where
  out : NImg
  segInvoked : Bool
  state : ProcState

/-- The `DualCameraIBRProcessor.process` for one call.  `seg` is the outcome
the segmentation service would produce if invoked on this call: `.ok m`
for a returned mask, `.error ()` for a raised exception.  Mirrors the
source: the non-IBR path copies and stabilizes; an IBR call first runs
the frame-skip gate; a gated-in call invokes segmentation, caching a copy
of the mask on success and returning the raw copy on failure (after
bumping the warning counter); a skipped call falls back to the cached
mask, or to the raw copy when none exists; any composited output is
brightness-stabilized. -/
def processStep (ext : Ext) (cfg : VisionConfig) (seg : Except Unit NMat)
    (image : NImg) (camera_role : CameraRole) (s : ProcState) : ProcResult :=
  if !useIBR cfg camera_role then
    { out := stabilizeBrightness ext cfg (npCopy image) camera_role,
      segInvoked := false, state := s }
  else
    let g := shouldRunSegmentation cfg s
    let runYolo := g.1
    let s1 := g.2
    if runYolo then
      match seg with
      | .ok m =>
          let s2 := { s1 with lastMask := some m }
          { out := stabilizeBrightness ext cfg (applyMask image m) camera_role,
            segInvoked := true, state := s2 }
      | .error _ =>
          let s2 :=
            { s1 with fallbackWarnCount := s1.fallbackWarnCount + 1 }
          { out := npCopy image, segInvoked := true, state := s2 }
    else
      match s1.lastMask with
      | some m =>
          { out := stabilizeBrightness ext cfg (applyMask image m) camera_role,
            segInvoked := false, state := s1 }
      | none =>
          { out := npCopy image, segInvoked := false, state := s1 }

/-- A sequence of `process` calls on one instance: each element of
`calls` is the frame together with the segmentation outcome for that
call, and each call is made for the role `camera_role`. -/
def runCalls (ext : Ext) (cfg : VisionConfig) (camera_role : CameraRole) :
    ProcState → List (NImg × Except Unit NMat) → List ProcResult
  | _, [] => []
  | s, (img, seg) :: rest =>
      let r := processStep ext cfg seg img camera_role s
      r :: runCalls ext cfg camera_role r.state rest

/-! ## YOLO26Service.segment: mask combination -/

/-- One raw instance mask as produced by the model: an `(mh, mw)` array of
probabilities. -/
structure RawMask where
  mh : Nat
  mw : Nat
  data : Nat → Nat → ℚ

/-- The pure-numpy nearest-neighbour resample of `segment`'s resize
fallback: sample row `min(floor(y * mh / h), mh - 1)` and column
`min(floor(x * mw / w), mw - 1)` of the raw mask. -/
def resizeNearest (h w : Nat) (m : RawMask) : RawMask :=
  { mh := h, mw := w,
    data := fun y x =>
      m.data (min (y * m.mh / h) (m.mh - 1)) (min (x * m.mw / w) (m.mw - 1)) }

/-- One iteration of `segment`'s combination loop: resize the raw mask if
its resolution differs from the frame, then
`mask_combined = np.maximum(mask_combined, (m > 0.5) * 255)`. -/
def segmentCombineStep (h w : Nat) (acc : NMat) (m : RawMask) : NMat :=
  let m1 := if m.mh ≠ h ∨ m.mw ≠ w then resizeNearest h w m else m
  { acc with
    data := fun y x =>
      max (acc.data y x) (if m1.data y x > 1/2 then 255 else 0) }

/-- The `YOLO26Service.segment` after the `model.predict` call: start from an
all-zero `(h, w)` mask (also returned directly when there are no
detections) and fold the combination loop over the detected raw masks. -/
def segmentService (image : NImg) (detections : List RawMask) : NMat :=
  let h := image.h
  let w := image.w
  let zero : NMat := { h := h, w := w, data := fun _ _ => 0 }
  if detections.isEmpty then zero
  else detections.foldl (segmentCombineStep h w) zero

/-- The keyword arguments `segment` passes to `model.predict`. -/
structure PredictParams where
  conf : ℚ
  iou : ℚ
  maxDet : Int
  verbose : Bool
  stream : Bool

/-- The `model.predict` invocation of `YOLO26Service.segment`: confidence
and IoU are read from the service's `VisionConfig`; `max_det` is the
literal 300. -/
def segmentPredictParams (cfg : VisionConfig) : PredictParams :=
  { conf := cfg.segmentation_confidence,
    iou := cfg.segmentation_iou_threshold,
    maxDet := 300,
    verbose := false,
    stream := false }

/-! ## YOLO26Service.segment: lock scope -/

/-- The sequence of observable actions `segment` performs, in source
order. -/
inductive SegAction where
  | acquireLock
  | loadModel
  | releaseLock
  | copyInput
  | predict
  | combineMasks
deriving DecidableEq, Repr

/-- The action trace of one `segment` call: enter the `with
self._infer_lock` block, load the model inside it when not yet loaded,
leave the block, then copy the input, run `model.predict` and combine the
masks. -/
def segmentTrace (modelLoaded : Bool) : List SegAction :=
  [SegAction.acquireLock]
    ++ (if modelLoaded then [] else [SegAction.loadModel])
    ++ [SegAction.releaseLock, SegAction.copyInput, SegAction.predict,
        SegAction.combineMasks]

/-- Pair each action of a trace with the lock depth at which it
executes (number of acquisitions minus releases before it). -/
def depthBefore (t : List SegAction) : List (SegAction × Nat) :=
  (t.foldl
    (fun (p : List (SegAction × Nat) × Nat) a =>
      (p.1 ++ [(a, p.2)],
       match a with
       | SegAction.acquireLock => p.2 + 1
       | SegAction.releaseLock => p.2 - 1
       | _ => p.2))
    ([], 0)).1

/-- Whether every occurrence of action `a` in the trace executes with the
lock held. -/
def actionLocked (t : List SegAction) (a : SegAction) : Bool :=
  (depthBefore t).all (fun p => !(p.1 == a) || decide (0 < p.2))

/-! ## Aliasing model

Arrays are identified by allocation ids; a heap state tracks the next
fresh id and the log of ids written in place.  Every numpy primitive of
the pipeline is mirrored: `.copy()` and array-producing library calls
allocate, boolean-mask assignment writes to its target id. -/

/-- Allocation state: `nextId` is the next unused array id; `writes`
records every id an in-place store has hit, in order. -/
structure AState where
  nextId : Nat
  writes : List Nat

/-- Allocate a fresh array id. -/
def aAlloc (st : AState) : Nat × AState :=
  (st.nextId, { st with nextId := st.nextId + 1 })

/-- The `arr.copy()`: reads the source, returns a fresh id. -/
def aCopy (st : AState) (_src : Nat) : Nat × AState :=
  aAlloc st

/-- An in-place store (`out[cond] = bg`) into the array `dst`. -/
def aWrite (st : AState) (dst : Nat) : AState :=
  { st with writes := st.writes ++ [dst] }

/-- The `_apply_mask` in the aliasing model: copy the image, then store into
the copy. -/
def applyMaskA (st : AState) (imageId : Nat) : Nat × AState :=
  let c := aCopy st imageId
  (c.1, aWrite c.2 c.1)

/-- The `_apply_brightness_contrast_gamma` in the aliasing model: the neutral
short-circuit returns the argument array itself; the float path ends in
`astype(np.uint8)`, a fresh array. -/
def applyBCGA (neutral : Bool) (st : AState) (imageId : Nat) :
    Nat × AState :=
  if neutral then (imageId, st) else aAlloc st

/-- The `_stabilize_brightness` in the aliasing model: copy, then the
brightness/contrast/gamma step, then (when CLAHE is enabled) the cv2
LAB round-trip, whose output is a fresh array. -/
def stabilizeA (neutral claheEnabled : Bool) (st : AState) (imageId : Nat) :
    Nat × AState :=
  let c := aCopy st imageId
  let b := applyBCGA neutral c.2 c.1
  if claheEnabled then aAlloc b.2 else b

/-- Fold of `numMasks` allocations over an id/heap pair, one per
combination-loop iteration. -/
def combineAllocs : Nat × AState → Nat → Nat × AState
  | p, 0 => p
  | p, n + 1 => combineAllocs (aAlloc p.2) n

/-- The `YOLO26Service.segment` in the aliasing model: copy the input for
`predict`, allocate the all-zero combined mask, and allocate once per
combination-loop iteration (`np.maximum` returns a new array); the final
id is returned.  No in-place store occurs. -/
def segmentA (st : AState) (imageId : Nat) (numMasks : Nat) : Nat × AState :=
  let c := aCopy st imageId
  let z := aAlloc c.2
  combineAllocs z numMasks

/-- A well-behaved id/heap step starting from `st`: every id newly
appended to the write log was fresh at entry (so no array existing
before the step is written), the allocation counter does not decrease,
and the produced id is fresh relative to entry. -/
def StepOk (st : AState) (r : Nat × AState) : Prop :=
  (∃ l, r.2.writes = st.writes ++ l ∧ ∀ j ∈ l, st.nextId ≤ j) ∧
  st.nextId ≤ r.2.nextId ∧ st.nextId ≤ r.1

/-- Whether the role's brightness/contrast/gamma parameters take the
neutral short-circuit of `_apply_brightness_contrast_gamma`. -/
def roleNeutral (cfg : VisionConfig) (camera_role : CameraRole) : Bool :=
  let p := roleBrightnessParams cfg camera_role
  decide (ratAbs (p.1 - 1) < 1/1000000 ∧ ratAbs (p.2.1 - 1) < 1/1000000 ∧
    ratAbs (p.2.2.1 - 1) < 1/1000000)

/-- Whether the role's CLAHE stabilization flag is set. -/
def roleClahe (cfg : VisionConfig) (camera_role : CameraRole) : Bool :=
  (roleBrightnessParams cfg camera_role).2.2.2.1

/-- Per-instance processor state in the aliasing model: the cached mask
is the id of the array stored in the single `_last_mask` slot. -/
structure AProcState where
  frameCount : Nat
  lastMaskId : Option Nat
  fallbackWarnCount : Nat

/-- Fresh-instance state in the aliasing model. -/
def AProcState.init : AProcState :=
  { frameCount := 0, lastMaskId := none, fallbackWarnCount := 0 }

/-- Result of one aliasing-model call: returned image id, returned mask
id (for the `process_with_mask` variant), processor state and heap
state after the call. -/
structure AResult where
  outId : Nat
  maskId : Option Nat
  procState : AProcState
  heap : AState

/-- The `DualCameraIBRProcessor.process_with_mask` in the aliasing model,
with the same branch structure as `processStep`; `seg` carries the
number of detections on success.  On a gated-in success the processor
caches a copy of the fresh segmentation mask but returns the fresh mask
itself; on a skipped call with a cache it returns the cached id. -/
def processWithMaskA (cfg : VisionConfig) (seg : Except Unit Nat)
    (imageId : Nat) (camera_role : CameraRole) (ps : AProcState)
    (st : AState) : AResult :=
  let neutral := roleNeutral cfg camera_role
  let clahe := roleClahe cfg camera_role
  if !useIBR cfg camera_role then
    let c := aCopy st imageId
    let s := stabilizeA neutral clahe c.2 c.1
    { outId := s.1, maskId := none, procState := ps, heap := s.2 }
  else
    let ps1 := { ps with frameCount := ps.frameCount + 1 }
    let runYolo := decide ((ps1.frameCount - 1) % effectiveSkip cfg = 0)
    if runYolo then
      match seg with
      | .ok n =>
          let m := segmentA st imageId n
          let mc := aCopy m.2 m.1
          let ps2 := { ps1 with lastMaskId := some mc.1 }
          let a := applyMaskA mc.2 imageId
          let s := stabilizeA neutral clahe a.2 a.1
          { outId := s.1, maskId := some m.1, procState := ps2, heap := s.2 }
      | .error _ =>
          let ps2 :=
            { ps1 with fallbackWarnCount := ps1.fallbackWarnCount + 1 }
          let c := aCopy st imageId
          { outId := c.1, maskId := none, procState := ps2, heap := c.2 }
    else
      match ps1.lastMaskId with
      | some mid =>
          let a := applyMaskA st imageId
          let s := stabilizeA neutral clahe a.2 a.1
          { outId := s.1, maskId := some mid, procState := ps1, heap := s.2 }
      | none =>
          let c := aCopy st imageId
          { outId := c.1, maskId := none, procState := ps1, heap := c.2 }

/-- The `DualCameraIBRProcessor.process` in the aliasing model.  Its source
body is `process_with_mask`'s verbatim except that the mask is not
returned, so the allocation behaviour is that of `processWithMaskA` with
the mask id dropped. -/
def processA (cfg : VisionConfig) (seg : Except Unit Nat) (imageId : Nat)
    (camera_role : CameraRole) (ps : AProcState) (st : AState) : AResult :=
  let r := processWithMaskA cfg seg imageId camera_role ps st
  { r with maskId := none }

/-! ## Auxiliary definitions for the statements -/

/-- Whether a segmentation outcome is a success. -/
def segOk : Except Unit NMat → Bool
  | .ok _ => true
  | .error _ => false

/-- Default image for out-of-range list reads. -/
def dummyImg : NImg := { h := 0, w := 0, data := fun _ _ _ => 0 }

/-- Default mask for out-of-range reads. -/
def dummyMask : NMat := { h := 0, w := 0, data := fun _ _ => 0 }

/-- Default call for out-of-range list reads. -/
def dummyCall : NImg × Except Unit NMat := (dummyImg, .error ())

/-- Default result for out-of-range list reads. -/
def dummyResult : ProcResult :=
  { out := dummyImg, segInvoked := false, state := ProcState.init }

/-- The mask the oracle returns at call index `j`, when that call is a
success. -/
def segMaskAt (calls : List (NImg × Except Unit NMat)) (j : Nat) :
    Option NMat :=
  match (calls.getD j dummyCall).2 with
  | .ok m => some m
  | .error _ => none

/-- Instance state after a sequence of `process` calls. -/
def stateAfter (ext : Ext) (cfg : VisionConfig) (camera_role : CameraRole)
    (s : ProcState) (calls : List (NImg × Except Unit NMat)) : ProcState :=
  calls.foldl (fun s c => (processStep ext cfg c.2 c.1 camera_role s).state) s

/-! ## Concrete fixtures used by witnesses and counterexamples -/

/-- External float transforms instantiated as identities. -/
def extId : Ext := { bcg := fun _ _ _ i => i, clahe := fun _ _ i => i }

/-- 2-by-2 image of uniform value 7. -/
def img7 : NImg := { h := 2, w := 2, data := fun _ _ _ => 7 }

/-- 2-by-2 image of uniform value 9. -/
def img9 : NImg := { h := 2, w := 2, data := fun _ _ _ => 9 }

/-- 2-by-2 mask: column 0 background, column 1 foreground. -/
def maskL : NMat := { h := 2, w := 2, data := fun _ x => if x = 0 then 0 else 255 }

/-- 2-by-2 all-foreground mask. -/
def maskF : NMat := { h := 2, w := 2, data := fun _ _ => 255 }

/-- 2-by-2 all-background mask. -/
def maskB : NMat := { h := 2, w := 2, data := fun _ _ => 0 }

/-- Default configuration: gripper IBR on, top IBR off, frame skip 2. -/
def cfgDefault : VisionConfig := {}

/-- Configuration with IBR enabled for both roles and frame skip 3. -/
def cfgBoth3 : VisionConfig :=
  { gripper_use_ibr := true, top_use_ibr := true, segmentation_frame_skip := 3 }

/-- Configuration whose every numeric tunable equals 7. -/
def cfgAll7 : VisionConfig :=
  { segmentation_confidence := 7, segmentation_iou_threshold := 7,
    segmentation_frame_skip := 7,
    top_brightness_clip_limit := 7, top_brightness_tile_size := 7,
    top_brightness := 7, top_contrast := 7, top_gamma := 7,
    gripper_brightness_clip_limit := 7, gripper_brightness_tile_size := 7,
    gripper_brightness := 7, gripper_contrast := 7, gripper_gamma := 7 }

/-- A 1-by-1 raw mask of probability 1 (a resolution different from the
2-by-2 fixtures). -/
def rawSmall : RawMask := { mh := 1, mw := 1, data := fun _ _ => 1 }

/-- Configuration whose every numeric tunable equals 9. -/
def cfgAll9 : VisionConfig :=
  { segmentation_confidence := 9, segmentation_iou_threshold := 9,
    segmentation_frame_skip := 9,
    top_brightness_clip_limit := 9, top_brightness_tile_size := 9,
    top_brightness := 9, top_contrast := 9, top_gamma := 9,
    gripper_brightness_clip_limit := 9, gripper_brightness_tile_size := 9,
    gripper_brightness := 9, gripper_contrast := 9, gripper_gamma := 9 }

/-! ## Theorems -/

/-- C2: for every image and every mask of matching height and width with
values in {0, 255}, the background-removal composite
(`_apply_mask`, whose background colour is the fixed black
`BACKGROUND_COLOR`, and `remove_background`, whose background colour is
configured) sets every pixel where the mask is 0 to the background
colour and leaves every pixel where the mask is 255 equal to its
original value. -/
theorem C2_composite_mask_semantics
    (bg0 bg1 bg2 : Nat) (image : NImg) (mask : NMat)
    (_hh : mask.h = image.h) (_hw : mask.w = image.w)
    (_hbin : mask.Binary) :
    ∀ y < image.h, ∀ x < image.w, ∀ c < 3,
      (mask.data y x = 0 →
        (applyMask image mask).data y x c = 0 ∧
        (remove_background bg0 bg1 bg2 image mask).data y x c =
          (if c = 0 then bg0 else if c = 1 then bg1 else bg2)) ∧
      (mask.data y x = 255 →
        (applyMask image mask).data y x c = image.data y x c ∧
        (remove_background bg0 bg1 bg2 image mask).data y x c =
          image.data y x c) := by
  intro y _ x _ c _
  constructor
  · intro h0
    simp [applyMask, remove_background, npMaskedFill, npCopy, h0,
      BACKGROUND_COLOR]
  · intro h255
    simp [applyMask, remove_background, npMaskedFill, npCopy, h255,
      BACKGROUND_COLOR]

/-- Witness for C2 at a concrete image, mask and background colour. -/
theorem C2_composite_mask_semantics_witness :
    (maskL.h = img7.h ∧ maskL.w = img7.w ∧ maskL.Binary) ∧
    (∀ y < img7.h, ∀ x < img7.w, ∀ c < 3,
      (maskL.data y x = 0 →
        (applyMask img7 maskL).data y x c = 0 ∧
        (remove_background 1 2 3 img7 maskL).data y x c =
          (if c = 0 then 1 else if c = 1 then 2 else 3)) ∧
      (maskL.data y x = 255 →
        (applyMask img7 maskL).data y x c = img7.data y x c ∧
        (remove_background 1 2 3 img7 maskL).data y x c =
          img7.data y x c)) :=
  ⟨⟨rfl, rfl, by decide⟩,
    C2_composite_mask_semantics 1 2 3 img7 maskL rfl rfl (by decide)⟩

/-- C5 counterexample: at the concrete configuration `cfgAll7`, whose
every numeric tunable is 7 (and likewise `cfgAll9` with 9), the
`max_det` argument `segment` passes to `model.predict` is 300 — it
matches no numeric field of the configuration, so the maximum number of
detections is not taken from the `VisionConfig`. -/
theorem C5_max_det_not_from_config :
    (segmentPredictParams cfgAll7).maxDet = 300 ∧
    (segmentPredictParams cfgAll9).maxDet = 300 ∧
    cfgAll7.segmentation_frame_skip ≠ 300 ∧
    cfgAll7.top_brightness_tile_size ≠ 300 ∧
    cfgAll7.gripper_brightness_tile_size ≠ 300 ∧
    cfgAll7.segmentation_confidence ≠ 300 ∧
    cfgAll7.segmentation_iou_threshold ≠ 300 ∧
    cfgAll7.top_brightness_clip_limit ≠ 300 ∧
    cfgAll7.top_brightness ≠ 300 ∧
    cfgAll7.top_contrast ≠ 300 ∧
    cfgAll7.top_gamma ≠ 300 ∧
    cfgAll7.gripper_brightness_clip_limit ≠ 300 ∧
    cfgAll7.gripper_brightness ≠ 300 ∧
    cfgAll7.gripper_contrast ≠ 300 ∧
    cfgAll7.gripper_gamma ≠ 300 := by
  refine ⟨rfl, rfl, ?_, ?_, ?_, ?_, ?_, ?_, ?_, ?_, ?_, ?_, ?_, ?_, ?_⟩
    <;> decide

/-- C5 amended: for every `segment` call, the confidence and IoU
thresholds passed to `model.predict` are taken from the `VisionConfig`
the service was constructed with, while the maximum number of
detections is the hard-coded literal 300. -/
theorem C5_predict_params (cfg : VisionConfig) :
    (segmentPredictParams cfg).conf = cfg.segmentation_confidence ∧
    (segmentPredictParams cfg).iou = cfg.segmentation_iou_threshold ∧
    (segmentPredictParams cfg).maxDet = 300 :=
  ⟨rfl, rfl, rfl⟩

/-- C7: in every `segment` call the lazy model load executes with
`_infer_lock` held, but `model.predict` executes with the lock depth at
zero — both on the first call (model not yet loaded) and on later calls —
so two concurrent calls' load-plus-inference sections are NOT serialized
by the lock: only the load is.  This contradicts the claim and the
service's own docstrings. -/
theorem C7_predict_runs_outside_lock :
    actionLocked (segmentTrace false) SegAction.loadModel = true ∧
    actionLocked (segmentTrace false) SegAction.predict = false ∧
    actionLocked (segmentTrace true) SegAction.predict = false := by
  refine ⟨?_, ?_, ?_⟩ <;> decide

/-- At the neutral values 1.0 the brightness/contrast/gamma transform is
the identity on the image. -/
theorem applyBCG_neutral (ext : Ext) (image : NImg) :
    applyBrightnessContrastGamma ext image 1 1 1 = image := by
  have h : ratAbs ((1 : ℚ) - 1) < 1/1000000 := by norm_num [ratAbs]
  unfold applyBrightnessContrastGamma
  rw [if_pos ⟨h, h, h⟩]

/-- With neutral brightness/contrast/gamma and CLAHE off,
`_stabilize_brightness` is the identity. -/
theorem stabilizeBrightness_neutral (ext : Ext) (cfg : VisionConfig)
    (image : NImg) (camera_role : CameraRole)
    (hb : (roleBrightnessParams cfg camera_role).1 = 1)
    (hc : (roleBrightnessParams cfg camera_role).2.1 = 1)
    (hg : (roleBrightnessParams cfg camera_role).2.2.1 = 1)
    (hcl : (roleBrightnessParams cfg camera_role).2.2.2.1 = false) :
    stabilizeBrightness ext cfg image camera_role = image := by
  simp only [stabilizeBrightness]
  rw [hb, hc, hg, hcl]
  simp [npCopy, applyBCG_neutral]

/-- C8: for a frame processed for a role with IBR disabled whose
brightness, contrast and gamma are the neutral 1.0 and whose CLAHE flag
is off, `process` returns the input image unchanged (pixel-for-pixel),
invokes no segmentation and leaves the instance state untouched. -/
theorem C8_neutral_passthrough (ext : Ext) (cfg : VisionConfig)
    (seg : Except Unit NMat) (image : NImg) (camera_role : CameraRole)
    (s : ProcState)
    (hibr : useIBR cfg camera_role = false)
    (hb : (roleBrightnessParams cfg camera_role).1 = 1)
    (hc : (roleBrightnessParams cfg camera_role).2.1 = 1)
    (hg : (roleBrightnessParams cfg camera_role).2.2.1 = 1)
    (hcl : (roleBrightnessParams cfg camera_role).2.2.2.1 = false) :
    (processStep ext cfg seg image camera_role s).out = image ∧
    (∀ y < image.h, ∀ x < image.w, ∀ c < 3,
      (processStep ext cfg seg image camera_role s).out.data y x c =
        image.data y x c) ∧
    (processStep ext cfg seg image camera_role s).segInvoked = false ∧
    (processStep ext cfg seg image camera_role s).state = s := by
  have hout : processStep ext cfg seg image camera_role s =
      { out := stabilizeBrightness ext cfg (npCopy image) camera_role,
        segInvoked := false, state := s } := by
    simp [processStep, hibr]
  have hstab : stabilizeBrightness ext cfg (npCopy image) camera_role
      = image := stabilizeBrightness_neutral ext cfg (npCopy image)
    camera_role hb hc hg hcl
  refine ⟨?_, ?_, ?_, ?_⟩ <;> simp [hout, hstab]

/-- Witness for C8: the default configuration with the TOP role (IBR
off, all brightness knobs neutral, CLAHE off) and a concrete frame. -/
theorem C8_neutral_passthrough_witness :
    (useIBR cfgDefault CameraRole.TOP = false ∧
      (roleBrightnessParams cfgDefault CameraRole.TOP).1 = 1 ∧
      (roleBrightnessParams cfgDefault CameraRole.TOP).2.1 = 1 ∧
      (roleBrightnessParams cfgDefault CameraRole.TOP).2.2.1 = 1 ∧
      (roleBrightnessParams cfgDefault CameraRole.TOP).2.2.2.1 = false) ∧
    ((processStep extId cfgDefault (Except.ok maskF) img7 CameraRole.TOP
        ProcState.init).out = img7 ∧
      (∀ y < img7.h, ∀ x < img7.w, ∀ c < 3,
        (processStep extId cfgDefault (Except.ok maskF) img7 CameraRole.TOP
          ProcState.init).out.data y x c = img7.data y x c) ∧
      (processStep extId cfgDefault (Except.ok maskF) img7 CameraRole.TOP
        ProcState.init).segInvoked = false ∧
      (processStep extId cfgDefault (Except.ok maskF) img7 CameraRole.TOP
        ProcState.init).state = ProcState.init) :=
  ⟨⟨rfl, rfl, rfl, rfl, rfl⟩,
    C8_neutral_passthrough extId cfgDefault (Except.ok maskF) img7
      CameraRole.TOP ProcState.init rfl rfl rfl rfl rfl⟩

/-- C9: a `process` call for a role with IBR enabled that the frame-skip
gate skips while no mask has ever been cached returns the raw frame,
invokes no segmentation and still caches nothing. -/
theorem C9_skip_without_cache_raw (ext : Ext) (cfg : VisionConfig)
    (seg : Except Unit NMat) (image : NImg) (camera_role : CameraRole)
    (s : ProcState)
    (hibr : useIBR cfg camera_role = true)
    (hnone : s.lastMask = none)
    (hskip : s.frameCount % effectiveSkip cfg ≠ 0) :
    (processStep ext cfg seg image camera_role s).out = image ∧
    (processStep ext cfg seg image camera_role s).segInvoked = false ∧
    (processStep ext cfg seg image camera_role s).state.lastMask = none := by
  simp [processStep, shouldRunSegmentation, hibr, hnone, npCopy,
    Nat.add_sub_cancel, hskip]

/-- Witness for C9: default configuration (frame skip 2), GRIPPER role,
an instance whose counter stands at 1 with an empty cache. -/
theorem C9_skip_without_cache_raw_witness :
    (useIBR cfgDefault CameraRole.GRIPPER = true ∧
      ({ frameCount := 1, lastMask := none,
         fallbackWarnCount := 0 } : ProcState).lastMask = none ∧
      1 % effectiveSkip cfgDefault ≠ 0) ∧
    ((processStep extId cfgDefault (Except.ok maskF) img7 CameraRole.GRIPPER
        { frameCount := 1, lastMask := none, fallbackWarnCount := 0 }).out
        = img7 ∧
      (processStep extId cfgDefault (Except.ok maskF) img7 CameraRole.GRIPPER
        { frameCount := 1, lastMask := none,
          fallbackWarnCount := 0 }).segInvoked = false ∧
      (processStep extId cfgDefault (Except.ok maskF) img7 CameraRole.GRIPPER
        { frameCount := 1, lastMask := none,
          fallbackWarnCount := 0 }).state.lastMask = none) :=
  ⟨⟨rfl, rfl, by decide⟩,
    C9_skip_without_cache_raw extId cfgDefault (Except.ok maskF) img7
      CameraRole.GRIPPER
      { frameCount := 1, lastMask := none, fallbackWarnCount := 0 }
      rfl rfl (by decide)⟩

/-- Branch lemma: a gated-in call whose segmentation succeeds composites
with the fresh mask, reports the invocation and caches the mask. -/
theorem processStep_run_ok (ext : Ext) (cfg : VisionConfig) (image : NImg)
    (camera_role : CameraRole) (s : ProcState) (m : NMat)
    (hibr : useIBR cfg camera_role = true)
    (hrun : s.frameCount % effectiveSkip cfg = 0) :
    processStep ext cfg (Except.ok m) image camera_role s =
      { out := stabilizeBrightness ext cfg (applyMask image m) camera_role,
        segInvoked := true,
        state := { frameCount := s.frameCount + 1, lastMask := some m,
                   fallbackWarnCount := s.fallbackWarnCount } } := by
  simp [processStep, shouldRunSegmentation, hibr, Nat.add_sub_cancel, hrun]

/-- Branch lemma: a gated-in call whose segmentation raises returns the
raw frame, preserves the cached mask and bumps the warning counter. -/
theorem processStep_run_err (ext : Ext) (cfg : VisionConfig) (image : NImg)
    (camera_role : CameraRole) (s : ProcState)
    (hibr : useIBR cfg camera_role = true)
    (hrun : s.frameCount % effectiveSkip cfg = 0) :
    processStep ext cfg (Except.error ()) image camera_role s =
      { out := image, segInvoked := true,
        state := { frameCount := s.frameCount + 1, lastMask := s.lastMask,
                   fallbackWarnCount := s.fallbackWarnCount + 1 } } := by
  simp [processStep, shouldRunSegmentation, hibr, Nat.add_sub_cancel, hrun,
    npCopy]

/-- Branch lemma: a skipped call with a cached mask composites with the
cached mask, invokes no segmentation and changes only the counter. -/
theorem processStep_skip_reuse (ext : Ext) (cfg : VisionConfig)
    (seg : Except Unit NMat) (image : NImg) (camera_role : CameraRole)
    (s : ProcState) (m : NMat)
    (hibr : useIBR cfg camera_role = true)
    (hskip : s.frameCount % effectiveSkip cfg ≠ 0)
    (hm : s.lastMask = some m) :
    processStep ext cfg seg image camera_role s =
      { out := stabilizeBrightness ext cfg (applyMask image m) camera_role,
        segInvoked := false,
        state := { frameCount := s.frameCount + 1, lastMask := s.lastMask,
                   fallbackWarnCount := s.fallbackWarnCount } } := by
  simp [processStep, shouldRunSegmentation, hibr, Nat.add_sub_cancel, hskip,
    hm]

/-- C3: when segmentation raises on a gated-in IBR call, that call
returns the raw input frame, the previously cached mask is left exactly
as it was (the counter and warning count advance), and a subsequent
skipped call still composites with the pre-failure mask. -/
theorem C3_failure_raw_fallback_preserves_cache (ext : Ext)
    (cfg : VisionConfig) (seg2 : Except Unit NMat) (image image2 : NImg)
    (camera_role : CameraRole) (s : ProcState)
    (hibr : useIBR cfg camera_role = true)
    (hrun : s.frameCount % effectiveSkip cfg = 0)
    (hskip : (s.frameCount + 1) % effectiveSkip cfg ≠ 0) :
    (processStep ext cfg (Except.error ()) image camera_role s).out = image ∧
    (processStep ext cfg (Except.error ()) image camera_role
      s).segInvoked = true ∧
    (processStep ext cfg (Except.error ()) image camera_role
      s).state.lastMask = s.lastMask ∧
    (processStep ext cfg (Except.error ()) image camera_role
      s).state.frameCount = s.frameCount + 1 ∧
    (processStep ext cfg (Except.error ()) image camera_role
      s).state.fallbackWarnCount = s.fallbackWarnCount + 1 ∧
    (∀ m, s.lastMask = some m →
      (processStep ext cfg seg2 image2 camera_role
        (processStep ext cfg (Except.error ()) image camera_role
          s).state).out =
        stabilizeBrightness ext cfg (applyMask image2 m) camera_role ∧
      (processStep ext cfg seg2 image2 camera_role
        (processStep ext cfg (Except.error ()) image camera_role
          s).state).segInvoked = false) := by
  have h1 := processStep_run_err ext cfg image camera_role s hibr hrun
  refine ⟨by simp [h1], by simp [h1], by simp [h1], by simp [h1],
    by simp [h1], ?_⟩
  intro m hm
  have h2 := processStep_skip_reuse ext cfg seg2 image2 camera_role
    ((processStep ext cfg (Except.error ()) image camera_role s).state) m
    hibr (by simp [h1, hskip]) (by simp [h1, hm])
  exact ⟨by simp [h2], by simp [h2]⟩

/-- Witness for C3: default configuration (skip 2), GRIPPER role, an
instance whose counter stands at 0 with mask `maskL` cached; the failing
call returns the raw frame and the next (skipped) call reuses `maskL`. -/
theorem C3_failure_raw_fallback_preserves_cache_witness :
    (useIBR cfgDefault CameraRole.GRIPPER = true ∧
      0 % effectiveSkip cfgDefault = 0 ∧
      (0 + 1) % effectiveSkip cfgDefault ≠ 0) ∧
    ((processStep extId cfgDefault (Except.error ()) img7 CameraRole.GRIPPER
        { frameCount := 0, lastMask := some maskL,
          fallbackWarnCount := 0 }).out = img7 ∧
      (processStep extId cfgDefault (Except.error ()) img7 CameraRole.GRIPPER
        { frameCount := 0, lastMask := some maskL,
          fallbackWarnCount := 0 }).segInvoked = true ∧
      (processStep extId cfgDefault (Except.error ()) img7 CameraRole.GRIPPER
        { frameCount := 0, lastMask := some maskL,
          fallbackWarnCount := 0 }).state.lastMask =
        ({ frameCount := 0, lastMask := some maskL,
           fallbackWarnCount := 0 } : ProcState).lastMask ∧
      (processStep extId cfgDefault (Except.error ()) img7 CameraRole.GRIPPER
        { frameCount := 0, lastMask := some maskL,
          fallbackWarnCount := 0 }).state.frameCount = 0 + 1 ∧
      (processStep extId cfgDefault (Except.error ()) img7 CameraRole.GRIPPER
        { frameCount := 0, lastMask := some maskL,
          fallbackWarnCount := 0 }).state.fallbackWarnCount = 0 + 1 ∧
      (∀ m, ({ frameCount := 0, lastMask := some maskL,
               fallbackWarnCount := 0 } : ProcState).lastMask = some m →
        (processStep extId cfgDefault (Except.ok maskF) img9
          CameraRole.GRIPPER
          (processStep extId cfgDefault (Except.error ()) img7
            CameraRole.GRIPPER
            { frameCount := 0, lastMask := some maskL,
              fallbackWarnCount := 0 }).state).out =
          stabilizeBrightness extId cfgDefault (applyMask img9 m)
            CameraRole.GRIPPER ∧
        (processStep extId cfgDefault (Except.ok maskF) img9
          CameraRole.GRIPPER
          (processStep extId cfgDefault (Except.error ()) img7
            CameraRole.GRIPPER
            { frameCount := 0, lastMask := some maskL,
              fallbackWarnCount := 0 }).state).segInvoked = false)) :=
  ⟨⟨rfl, by decide, by decide⟩,
    C3_failure_raw_fallback_preserves_cache extId cfgDefault
      (Except.ok maskF) img7 img9 CameraRole.GRIPPER
      { frameCount := 0, lastMask := some maskL, fallbackWarnCount := 0 }
      rfl (by decide) (by decide)⟩

/-- C6 counterexample: with IBR enabled for both roles and frame skip 3,
a five-call run (GRIPPER run caching the all-foreground mask, two skips,
a TOP run caching the all-background mask, then a skipped GRIPPER call)
shows that processing a TOP frame replaces the single cached mask —
before the TOP run the cache held 255 at pixel (0,0), afterwards 0 — and
the skipped GRIPPER call then composites with the TOP-cached mask,
blanking pixel (0,0) to 0, where compositing with the GRIPPER-cached
mask would have kept the value 7. -/
theorem C6_counterexample_shared_cache :
    (processStep extId cfgBoth3 (Except.ok maskF) img7 CameraRole.GRIPPER
      ProcState.init).state =
      { frameCount := 1, lastMask := some maskF,
        fallbackWarnCount := 0 } ∧
    (processStep extId cfgBoth3 (Except.ok maskF) img7 CameraRole.GRIPPER
      { frameCount := 1, lastMask := some maskF,
        fallbackWarnCount := 0 }).state =
      { frameCount := 2, lastMask := some maskF,
        fallbackWarnCount := 0 } ∧
    (processStep extId cfgBoth3 (Except.ok maskF) img7 CameraRole.TOP
      { frameCount := 2, lastMask := some maskF,
        fallbackWarnCount := 0 }).state =
      { frameCount := 3, lastMask := some maskF,
        fallbackWarnCount := 0 } ∧
    (processStep extId cfgBoth3 (Except.ok maskB) img9 CameraRole.TOP
      { frameCount := 3, lastMask := some maskF,
        fallbackWarnCount := 0 }).segInvoked = true ∧
    (processStep extId cfgBoth3 (Except.ok maskB) img9 CameraRole.TOP
      { frameCount := 3, lastMask := some maskF,
        fallbackWarnCount := 0 }).state =
      { frameCount := 4, lastMask := some maskB,
        fallbackWarnCount := 0 } ∧
    (processStep extId cfgBoth3 (Except.ok maskF) img7 CameraRole.GRIPPER
      { frameCount := 4, lastMask := some maskB,
        fallbackWarnCount := 0 }).segInvoked = false ∧
    (processStep extId cfgBoth3 (Except.ok maskF) img7 CameraRole.GRIPPER
      { frameCount := 4, lastMask := some maskB,
        fallbackWarnCount := 0 }).out.data 0 0 0 = 0 ∧
    (stabilizeBrightness extId cfgBoth3 (applyMask img7 maskF)
      CameraRole.GRIPPER).data 0 0 0 = 7 ∧
    maskF.data 0 0 = 255 ∧ img7.data 0 0 0 = 7 := by
  have hstabB := stabilizeBrightness_neutral extId cfgBoth3
    (applyMask img7 maskB) CameraRole.GRIPPER rfl rfl rfl rfl
  have hstabF := stabilizeBrightness_neutral extId cfgBoth3
    (applyMask img7 maskF) CameraRole.GRIPPER rfl rfl rfl rfl
  have e5 := processStep_skip_reuse extId cfgBoth3 (Except.ok maskF) img7
    CameraRole.GRIPPER
    { frameCount := 4, lastMask := some maskB, fallbackWarnCount := 0 }
    maskB rfl (by decide) rfl
  refine ⟨rfl, rfl, rfl, rfl, rfl, by simp [e5], ?_, ?_, rfl, rfl⟩
  · rw [e5]
    show (stabilizeBrightness extId cfgBoth3 (applyMask img7 maskB)
      CameraRole.GRIPPER).data 0 0 0 = 0
    rw [hstabB]
    decide
  · rw [hstabF]
    decide

/-- C6 amended: the cached segmentation mask is a single per-instance
slot shared by both camera roles: a gated-in call for either role stores
its mask into that slot, and a skipped call for either role (the other
one included) composites with whatever the slot holds. -/
theorem C6_single_shared_cache_slot (ext : Ext) (cfg : VisionConfig)
    (seg2 : Except Unit NMat) (img1 img2 : NImg)
    (role1 role2 : CameraRole) (s : ProcState) (m : NMat)
    (h1 : useIBR cfg role1 = true) (h2 : useIBR cfg role2 = true)
    (hrun : s.frameCount % effectiveSkip cfg = 0)
    (hskip : (s.frameCount + 1) % effectiveSkip cfg ≠ 0) :
    (processStep ext cfg (Except.ok m) img1 role1 s).state.lastMask =
      some m ∧
    (processStep ext cfg seg2 img2 role2
      (processStep ext cfg (Except.ok m) img1 role1 s).state).out =
      stabilizeBrightness ext cfg (applyMask img2 m) role2 ∧
    (processStep ext cfg seg2 img2 role2
      (processStep ext cfg (Except.ok m) img1 role1 s).state).segInvoked
      = false := by
  have hr := processStep_run_ok ext cfg img1 role1 s m h1 hrun
  have hs := processStep_skip_reuse ext cfg seg2 img2 role2
    ((processStep ext cfg (Except.ok m) img1 role1 s).state) m h2
    (by simp [hr, hskip]) (by simp [hr])
  exact ⟨by simp [hr], by simp [hs], by simp [hs]⟩

/-- Witness for C6 amended: a TOP run call caches `maskB`, a skipped
GRIPPER call composites with it. -/
theorem C6_single_shared_cache_slot_witness :
    (useIBR cfgBoth3 CameraRole.TOP = true ∧
      useIBR cfgBoth3 CameraRole.GRIPPER = true ∧
      0 % effectiveSkip cfgBoth3 = 0 ∧
      (0 + 1) % effectiveSkip cfgBoth3 ≠ 0) ∧
    ((processStep extId cfgBoth3 (Except.ok maskB) img9 CameraRole.TOP
        ProcState.init).state.lastMask = some maskB ∧
      (processStep extId cfgBoth3 (Except.ok maskF) img7 CameraRole.GRIPPER
        (processStep extId cfgBoth3 (Except.ok maskB) img9 CameraRole.TOP
          ProcState.init).state).out =
        stabilizeBrightness extId cfgBoth3 (applyMask img7 maskB)
          CameraRole.GRIPPER ∧
      (processStep extId cfgBoth3 (Except.ok maskF) img7 CameraRole.GRIPPER
        (processStep extId cfgBoth3 (Except.ok maskB) img9 CameraRole.TOP
          ProcState.init).state).segInvoked = false) :=
  ⟨⟨rfl, rfl, by decide, by decide⟩,
    C6_single_shared_cache_slot extId cfgBoth3 (Except.ok maskF) img9 img7
      CameraRole.TOP CameraRole.GRIPPER ProcState.init maskB rfl rfl
      (by decide) (by decide)⟩

/-- The combination fold never changes the mask height. -/
theorem foldl_combine_h (h w : Nat) (l : List RawMask) (acc : NMat) :
    (l.foldl (segmentCombineStep h w) acc).h = acc.h := by
  induction l generalizing acc with
  | nil => rfl
  | cons m rest ih => rw [List.foldl_cons]; exact ih _

/-- The combination fold never changes the mask width. -/
theorem foldl_combine_w (h w : Nat) (l : List RawMask) (acc : NMat) :
    (l.foldl (segmentCombineStep h w) acc).w = acc.w := by
  induction l generalizing acc with
  | nil => rfl
  | cons m rest ih => rw [List.foldl_cons]; exact ih _

/-- The combination fold keeps every value in {0, 255}. -/
theorem foldl_combine_range (h w : Nat) (l : List RawMask) (acc : NMat)
    (hacc : ∀ y x, acc.data y x = 0 ∨ acc.data y x = 255) :
    ∀ y x, (l.foldl (segmentCombineStep h w) acc).data y x = 0 ∨
      (l.foldl (segmentCombineStep h w) acc).data y x = 255 := by
  induction l generalizing acc with
  | nil => exact hacc
  | cons m rest ih =>
      rw [List.foldl_cons]
      refine ih _ ?_
      intro y x
      simp only [segmentCombineStep]
      have hbr :
          (if (if m.mh ≠ h ∨ m.mw ≠ w then resizeNearest h w m
              else m).data y x > 1/2 then (255 : Nat) else 0) = 0 ∨
          (if (if m.mh ≠ h ∨ m.mw ≠ w then resizeNearest h w m
              else m).data y x > 1/2 then (255 : Nat) else 0) = 255 := by
        split <;> split <;>
          first
          | exact Or.inr rfl
          | exact Or.inl rfl
      rcases hacc y x with h0 | h0 <;> rcases hbr with h1 | h1 <;>
        rw [h0, h1] <;> omega

/-- C4: the mask `segment` builds from the model's detections has
exactly the frame's height and width, all its values lie in {0, 255},
it is all-zero when there are no detections, and a raw mask whose
resolution differs from the frame enters the combination only through
its nearest-neighbour resample to the frame resolution. -/
theorem C4_segment_mask_shape_and_range (image : NImg)
    (detections : List RawMask) :
    (segmentService image detections).h = image.h ∧
    (segmentService image detections).w = image.w ∧
    (∀ y x, (segmentService image detections).data y x = 0 ∨
      (segmentService image detections).data y x = 255) ∧
    (detections = [] →
      ∀ y x, (segmentService image detections).data y x = 0) ∧
    (∀ acc m, (m.mh ≠ image.h ∨ m.mw ≠ image.w) →
      segmentCombineStep image.h image.w acc m =
        segmentCombineStep image.h image.w acc
          (resizeNearest image.h image.w m)) := by
  refine ⟨?_, ?_, ?_, ?_, ?_⟩
  · cases detections with
    | nil => rfl
    | cons m rest =>
        simpa [segmentService] using
          foldl_combine_h image.h image.w (m :: rest)
            { h := image.h, w := image.w, data := fun _ _ => 0 }
  · cases detections with
    | nil => rfl
    | cons m rest =>
        simpa [segmentService] using
          foldl_combine_w image.h image.w (m :: rest)
            { h := image.h, w := image.w, data := fun _ _ => 0 }
  · cases detections with
    | nil => intro y x; left; rfl
    | cons m rest =>
        intro y x
        simpa [segmentService] using
          foldl_combine_range image.h image.w (m :: rest)
            { h := image.h, w := image.w, data := fun _ _ => 0 }
            (fun _ _ => Or.inl rfl) y x
  · intro hd y x
    subst hd
    rfl
  · intro acc m hm
    simp only [segmentCombineStep]
    rw [if_pos hm, if_neg (by simp [resizeNearest])]

/-- Witness for C4: a concrete 2-by-2 frame with one 1-by-1 raw mask
(which therefore goes through the resize path). -/
theorem C4_segment_mask_shape_and_range_witness :
    (segmentService img7 [rawSmall]).h = img7.h ∧
    (segmentService img7 [rawSmall]).w = img7.w ∧
    (∀ y x, (segmentService img7 [rawSmall]).data y x = 0 ∨
      (segmentService img7 [rawSmall]).data y x = 255) ∧
    ([rawSmall] = ([] : List RawMask) →
      ∀ y x, (segmentService img7 [rawSmall]).data y x = 0) ∧
    (∀ acc m, (m.mh ≠ img7.h ∨ m.mw ≠ img7.w) →
      segmentCombineStep img7.h img7.w acc m =
        segmentCombineStep img7.h img7.w acc
          (resizeNearest img7.h img7.w m)) :=
  C4_segment_mask_shape_and_range img7 [rawSmall]

/-- The effective skip factor is at least 1. -/
theorem effectiveSkip_pos (cfg : VisionConfig) : 0 < effectiveSkip cfg := by
  have h : (1 : Int) ≤ max 1 cfg.segmentation_frame_skip := le_max_left 1 _
  have h2 := Int.toNat_le_toNat h
  simp only [effectiveSkip]
  omega

/-- Every IBR-enabled call advances the frame counter by exactly one. -/
theorem processStep_frameCount (ext : Ext) (cfg : VisionConfig)
    (seg : Except Unit NMat) (image : NImg) (camera_role : CameraRole)
    (s : ProcState) (hibr : useIBR cfg camera_role = true) :
    (processStep ext cfg seg image camera_role s).state.frameCount =
      s.frameCount + 1 := by
  simp only [processStep, shouldRunSegmentation, hibr, Bool.not_true,
    Bool.false_eq_true, if_false]
  split
  · cases seg <;> rfl
  · cases s.lastMask <;> rfl

/-- A skipped IBR call leaves the cached mask untouched and reports no
invocation, for any cache contents. -/
theorem processStep_skip_state (ext : Ext) (cfg : VisionConfig)
    (seg : Except Unit NMat) (image : NImg) (camera_role : CameraRole)
    (s : ProcState)
    (hibr : useIBR cfg camera_role = true)
    (hskip : s.frameCount % effectiveSkip cfg ≠ 0) :
    (processStep ext cfg seg image camera_role s).state.lastMask =
      s.lastMask ∧
    (processStep ext cfg seg image camera_role s).segInvoked = false := by
  cases hm : s.lastMask <;>
    simp [processStep, shouldRunSegmentation, hibr, Nat.add_sub_cancel,
      hskip, hm]

/-- Unfolding `stateAfter` over an empty call sequence. -/
theorem stateAfter_nil (ext : Ext) (cfg : VisionConfig)
    (camera_role : CameraRole) (s : ProcState) :
    stateAfter ext cfg camera_role s [] = s := rfl

/-- Unfolding `stateAfter` over a call appended at the end. -/
theorem stateAfter_append (ext : Ext) (cfg : VisionConfig)
    (camera_role : CameraRole) (s : ProcState)
    (calls : List (NImg × Except Unit NMat)) (c : NImg × Except Unit NMat) :
    stateAfter ext cfg camera_role s (calls ++ [c]) =
      (processStep ext cfg c.2 c.1 camera_role
        (stateAfter ext cfg camera_role s calls)).state := by
  simp [stateAfter, List.foldl_append]

/-- After `k` IBR-enabled calls the frame counter has advanced by `k`. -/
theorem stateAfter_frameCount (ext : Ext) (cfg : VisionConfig)
    (camera_role : CameraRole) (calls : List (NImg × Except Unit NMat))
    (s : ProcState) (hibr : useIBR cfg camera_role = true) :
    (stateAfter ext cfg camera_role s calls).frameCount =
      s.frameCount + calls.length := by
  induction calls generalizing s with
  | nil => rfl
  | cons c rest ih =>
      have h1 : stateAfter ext cfg camera_role s (c :: rest) =
          stateAfter ext cfg camera_role
            (processStep ext cfg c.2 c.1 camera_role s).state rest := by
        simp [stateAfter]
      rw [h1, ih, processStep_frameCount ext cfg c.2 c.1 camera_role s hibr,
        List.length_cons]
      omega

/-- When `L` is not a multiple of `N`, dropping one from `L` does not
change the quotient by `N`. -/
theorem pred_div_eq_of_mod_ne (L N : Nat) (_hN : 0 < N) (hL : L % N ≠ 0) :
    (L - 1) / N = L / N := by
  have hL1 : 1 ≤ L := by
    rcases Nat.eq_zero_or_pos L with h | h
    · subst h; simp at hL
    · exact h
  have hdvd : ¬ N ∣ L := by
    rintro ⟨k, rfl⟩
    exact hL (Nat.mul_mod_right N k)
  have hsucc := Nat.succ_div (L - 1) N
  rw [Nat.sub_add_cancel hL1, if_neg hdvd] at hsucc
  omega

/-- When `L` is a multiple of `N`, `N * (L / N) = L`. -/
theorem mul_div_self_of_mod (L N : Nat) (hL : L % N = 0) :
    N * (L / N) = L :=
  Nat.mul_div_cancel' (Nat.dvd_of_mod_eq_zero hL)

/-- When `L` is not a multiple of `N`, `N * (L / N) < L`. -/
theorem mul_div_lt_of_mod_ne (L N : Nat) (_hN : 0 < N) (hL : L % N ≠ 0) :
    N * (L / N) < L := by
  have hle : N * (L / N) ≤ L := by
    rw [Nat.mul_comm]
    exact Nat.div_mul_le_self L N
  rcases Nat.lt_or_ge (N * (L / N)) L with h | h
  · exact h
  · exfalso
    have heq : N * (L / N) = L := le_antisymm hle h
    exact hL (by
      have : N ∣ L := ⟨L / N, heq.symm⟩
      rcases this with ⟨k, rfl⟩
      exact Nat.mul_mod_right N k)

/-- The `segMaskAt` ignores calls appended past the index. -/
theorem segMaskAt_append_left (calls : List (NImg × Except Unit NMat))
    (c : NImg × Except Unit NMat) (j : Nat) (hj : j < calls.length) :
    segMaskAt (calls ++ [c]) j = segMaskAt calls j := by
  simp only [segMaskAt]
  rw [List.getD_append _ _ _ _ hj]

/-- The `segMaskAt` at the index of the appended call. -/
theorem segMaskAt_append_self (calls : List (NImg × Except Unit NMat))
    (c : NImg × Except Unit NMat) :
    segMaskAt (calls ++ [c]) calls.length = segMaskAt [c] 0 := by
  simp [segMaskAt, List.getD_append_right _ _ _ _ (le_refl calls.length)]

/-- Cache invariant: starting from a fresh instance and an all-successful
oracle, after any non-empty IBR call sequence the cached mask is the
oracle's mask for the most recent gated-in call, whose index is
`N * ((k - 1) / N)` for `k` calls made. -/
theorem stateAfter_lastMask (ext : Ext) (cfg : VisionConfig)
    (camera_role : CameraRole)
    (hibr : useIBR cfg camera_role = true) :
    ∀ calls : List (NImg × Except Unit NMat),
      (∀ e ∈ calls, segOk e.2 = true) → calls ≠ [] →
      (stateAfter ext cfg camera_role ProcState.init calls).lastMask =
        segMaskAt calls
          (effectiveSkip cfg *
            ((calls.length - 1) / effectiveSkip cfg)) := by
  intro calls
  induction calls using List.reverseRecOn with
  | nil => intro _ hne; exact absurd rfl hne
  | append_singleton calls c ih =>
      intro hok _
      have hNpos := effectiveSkip_pos cfg
      have hfc : (stateAfter ext cfg camera_role ProcState.init
          calls).frameCount = calls.length := by
        simpa [ProcState.init] using
          stateAfter_frameCount ext cfg camera_role calls ProcState.init hibr
      rw [stateAfter_append]
      simp only [List.length_append, List.length_singleton,
        Nat.add_sub_cancel]
      by_cases hL : calls.length % effectiveSkip cfg = 0
      · have hcok : segOk c.2 = true := hok c (by simp)
        cases hc : c.2 with
        | error e => rw [hc] at hcok; simp [segOk] at hcok
        | ok m =>
            rw [processStep_run_ok ext cfg c.1 camera_role _ m hibr
                (by rw [hfc]; exact hL)]
            have hidx : effectiveSkip cfg *
                (calls.length / effectiveSkip cfg) = calls.length :=
              mul_div_self_of_mod calls.length (effectiveSkip cfg) hL
            rw [hidx, segMaskAt_append_self]
            simp [segMaskAt, hc]
      · have hsk := processStep_skip_state ext cfg c.2 c.1 camera_role _
          hibr (by rw [hfc]; exact hL)
        rw [hsk.1]
        have hlen0 : calls.length ≠ 0 := by
          intro h0
          rw [h0] at hL
          simp at hL
        have hne' : calls ≠ [] := by
          intro h
          rw [h] at hlen0
          simp at hlen0
        have hok' : ∀ e ∈ calls, segOk e.2 = true :=
          fun e he => hok e (by simp [he])
        rw [ih hok' hne',
          pred_div_eq_of_mod_ne calls.length (effectiveSkip cfg) hNpos hL,
          segMaskAt_append_left calls c _
            (mul_div_lt_of_mod_ne calls.length (effectiveSkip cfg) hNpos hL)]

/-- The `i`-th result of a call sequence is the `i`-th call processed in
the state reached after the first `i` calls. -/
theorem runCalls_getD (ext : Ext) (cfg : VisionConfig)
    (camera_role : CameraRole) :
    ∀ (calls : List (NImg × Except Unit NMat)) (s : ProcState) (i : Nat),
      i < calls.length →
      (runCalls ext cfg camera_role s calls).getD i dummyResult =
        processStep ext cfg (calls.getD i dummyCall).2
          (calls.getD i dummyCall).1 camera_role
          (stateAfter ext cfg camera_role s (calls.take i)) := by
  intro calls
  induction calls with
  | nil => intro s i hi; simp at hi
  | cons c rest ih =>
      intro s i hi
      cases i with
      | zero => simp [runCalls, stateAfter]
      | succ i =>
          simp only [runCalls, List.getD_cons_succ, List.take_succ_cons]
          rw [ih _ i (by simpa using hi)]
          rfl

/-- The `segMaskAt` sees through `take` below the cut. -/
theorem segMaskAt_take (calls : List (NImg × Except Unit NMat))
    (i j : Nat) (hj : j < i) :
    segMaskAt (calls.take i) j = segMaskAt calls j := by
  simp only [segMaskAt, List.getD, List.get?_eq_getElem?]
  rw [List.getElem?_take_of_lt hj]

/-- C1: across any sequence of `process` calls on a fresh instance, all
for one IBR-enabled role with an all-successful segmentation oracle,
segmentation is invoked exactly on the calls whose 0-based index is a
multiple of the effective skip factor (the 1-based calls 1, N+1, 2N+1,
…), and every other call composites its frame with precisely the mask
produced by the most recent gated-in call (index `N * (i / N)`). -/
theorem C1_frame_skip_schedule (ext : Ext) (cfg : VisionConfig)
    (camera_role : CameraRole) (calls : List (NImg × Except Unit NMat))
    (i : Nat)
    (hibr : useIBR cfg camera_role = true)
    (hok : ∀ e ∈ calls, segOk e.2 = true)
    (hi : i < calls.length) :
    ((runCalls ext cfg camera_role ProcState.init calls).getD i
        dummyResult).segInvoked = decide (i % effectiveSkip cfg = 0) ∧
    (i % effectiveSkip cfg ≠ 0 →
      ∃ m, segMaskAt calls
          (effectiveSkip cfg * (i / effectiveSkip cfg)) = some m ∧
        ((runCalls ext cfg camera_role ProcState.init calls).getD i
            dummyResult).out =
          stabilizeBrightness ext cfg
            (applyMask (calls.getD i dummyCall).1 m) camera_role) := by
  have hNpos := effectiveSkip_pos cfg
  have hrg := runCalls_getD ext cfg camera_role calls ProcState.init i hi
  have htklen : (calls.take i).length = i := by
    rw [List.length_take]
    omega
  have hfc : (stateAfter ext cfg camera_role ProcState.init
      (calls.take i)).frameCount = i := by
    have := stateAfter_frameCount ext cfg camera_role (calls.take i)
      ProcState.init hibr
    rw [htklen] at this
    simpa [ProcState.init] using this
  by_cases hiN : i % effectiveSkip cfg = 0
  · have hmem : calls.getD i dummyCall ∈ calls := by
      rw [List.getD_eq_getElem calls dummyCall hi]
      exact List.getElem_mem hi
    have hcok : segOk (calls.getD i dummyCall).2 = true := hok _ hmem
    refine ⟨?_, fun h => absurd hiN h⟩
    cases hc : (calls.getD i dummyCall).2 with
    | error e => rw [hc] at hcok; simp [segOk] at hcok
    | ok m =>
        rw [hrg, hc,
          processStep_run_ok ext cfg _ camera_role _ m hibr
            (by rw [hfc]; exact hiN)]
        simp [hiN]
  · have hi1 : 1 ≤ i := by
      rcases Nat.eq_zero_or_pos i with h | h
      · subst h; simp at hiN
      · exact h
    have hne : calls.take i ≠ [] := by
      intro h
      have := congrArg List.length h
      rw [htklen] at this
      simp at this
      omega
    have hok' : ∀ e ∈ calls.take i, segOk e.2 = true :=
      fun e he => hok e (List.take_subset i calls he)
    have hlm := stateAfter_lastMask ext cfg camera_role hibr
      (calls.take i) hok' hne
    rw [htklen,
      pred_div_eq_of_mod_ne i (effectiveSkip cfg) hNpos hiN,
      segMaskAt_take calls i _
        (mul_div_lt_of_mod_ne i (effectiveSkip cfg) hNpos hiN)] at hlm
    have hltlen : effectiveSkip cfg * (i / effectiveSkip cfg) <
        calls.length :=
      lt_trans (mul_div_lt_of_mod_ne i (effectiveSkip cfg) hNpos hiN) hi
    have hmem2 : calls.getD
        (effectiveSkip cfg * (i / effectiveSkip cfg)) dummyCall ∈ calls := by
      rw [List.getD_eq_getElem calls dummyCall hltlen]
      exact List.getElem_mem hltlen
    have hcok2 : segOk (calls.getD
        (effectiveSkip cfg * (i / effectiveSkip cfg)) dummyCall).2 = true :=
      hok _ hmem2
    cases hc2 : (calls.getD
        (effectiveSkip cfg * (i / effectiveSkip cfg)) dummyCall).2 with
    | error e => rw [hc2] at hcok2; simp [segOk] at hcok2
    | ok m =>
        have hsome : segMaskAt calls
            (effectiveSkip cfg * (i / effectiveSkip cfg)) = some m := by
          simp only [segMaskAt]
          rw [hc2]
        rw [hsome] at hlm
        have hsk := processStep_skip_reuse ext cfg
          (calls.getD i dummyCall).2 (calls.getD i dummyCall).1 camera_role
          (stateAfter ext cfg camera_role ProcState.init (calls.take i)) m
          hibr (by rw [hfc]; exact hiN) hlm
        refine ⟨?_, fun _ => ⟨m, hsome, ?_⟩⟩
        · rw [hrg, hsk]
          simp [hiN]
        · rw [hrg, hsk]

/-- Witness for C1: default configuration (skip 2), GRIPPER role, three
successful calls, inspected at call index 1 (a skipped call). -/
theorem C1_frame_skip_schedule_witness :
    (useIBR cfgDefault CameraRole.GRIPPER = true ∧
      (∀ e ∈ [(img7, Except.ok maskF), (img9, Except.ok maskB),
        (img7, (Except.ok maskF : Except Unit NMat))], segOk e.2 = true) ∧
      1 < [(img7, Except.ok maskF), (img9, Except.ok maskB),
        (img7, (Except.ok maskF : Except Unit NMat))].length) ∧
    (((runCalls extId cfgDefault CameraRole.GRIPPER ProcState.init
        [(img7, Except.ok maskF), (img9, Except.ok maskB),
          (img7, Except.ok maskF)]).getD 1 dummyResult).segInvoked =
      decide (1 % effectiveSkip cfgDefault = 0) ∧
    (1 % effectiveSkip cfgDefault ≠ 0 →
      ∃ m, segMaskAt [(img7, Except.ok maskF), (img9, Except.ok maskB),
          (img7, Except.ok maskF)]
          (effectiveSkip cfgDefault * (1 / effectiveSkip cfgDefault)) =
            some m ∧
        ((runCalls extId cfgDefault CameraRole.GRIPPER ProcState.init
            [(img7, Except.ok maskF), (img9, Except.ok maskB),
              (img7, Except.ok maskF)]).getD 1 dummyResult).out =
          stabilizeBrightness extId cfgDefault
            (applyMask ([(img7, Except.ok maskF), (img9, Except.ok maskB),
              (img7, Except.ok maskF)].getD 1 dummyCall).1 m)
            CameraRole.GRIPPER)) :=
  ⟨⟨rfl, by decide, by decide⟩,
    C1_frame_skip_schedule extId cfgDefault CameraRole.GRIPPER
      [(img7, Except.ok maskF), (img9, Except.ok maskB),
        (img7, Except.ok maskF)] 1 rfl (by decide) (by decide)⟩

/-- Well-behaved steps compose. -/
theorem StepOk_comp {st : AState} {r1 r2 : Nat × AState}
    (h1 : StepOk st r1) (h2 : StepOk r1.2 r2) : StepOk st r2 := by
  obtain ⟨⟨l1, hw1, hl1⟩, hn1, _⟩ := h1
  obtain ⟨⟨l2, hw2, hl2⟩, hn2, hi2⟩ := h2
  refine ⟨⟨l1 ++ l2, ?_, ?_⟩, le_trans hn1 hn2, le_trans hn1 hi2⟩
  · rw [hw2, hw1, List.append_assoc]
  · intro j hj
    rcases List.mem_append.mp hj with h | h
    · exact hl1 j h
    · exact le_trans hn1 (hl2 j h)

/-- The `aCopy` is a well-behaved step. -/
theorem aCopy_stepOk (st : AState) (i : Nat) : StepOk st (aCopy st i) :=
  ⟨⟨[], by simp [aCopy, aAlloc], by simp⟩,
    by simp [aCopy, aAlloc], by simp [aCopy, aAlloc]⟩

/-- The `applyMaskA` is a well-behaved step: its only store hits the copy it
just allocated. -/
theorem applyMaskA_stepOk (st : AState) (i : Nat) :
    StepOk st (applyMaskA st i) :=
  ⟨⟨[st.nextId], by simp [applyMaskA, aCopy, aAlloc, aWrite],
    by simp⟩,
    by simp [applyMaskA, aCopy, aAlloc, aWrite],
    by simp [applyMaskA, aCopy, aAlloc, aWrite]⟩

/-- The `stabilizeA` is a well-behaved step (it allocates but never
stores). -/
theorem stabilizeA_stepOk (nb cb : Bool) (st : AState) (i : Nat) :
    StepOk st (stabilizeA nb cb st i) := by
  cases nb <;> cases cb <;>
    refine ⟨⟨[], by simp [stabilizeA, applyBCGA, aCopy, aAlloc], by simp⟩,
      ?_, ?_⟩ <;>
    simp [stabilizeA, applyBCGA, aCopy, aAlloc] <;> omega

/-- The `combineAllocs` preserves the write log, never lowers the counter
and yields an id no smaller than the entry id and counter. -/
theorem combineAllocs_spec (n : Nat) : ∀ p : Nat × AState,
    (combineAllocs p n).2.writes = p.2.writes ∧
    p.2.nextId ≤ (combineAllocs p n).2.nextId ∧
    min p.1 p.2.nextId ≤ (combineAllocs p n).1 := by
  induction n with
  | zero =>
      intro p
      exact ⟨rfl, le_refl _, min_le_left _ _⟩
  | succ n ih =>
      intro p
      have h := ih (aAlloc p.2)
      have heq : combineAllocs p (n + 1) = combineAllocs (aAlloc p.2) n :=
        rfl
      rw [heq]
      simp only [aAlloc] at h ⊢
      exact ⟨h.1, by omega, by omega⟩

/-- The `segmentA` performs no store at all, does not lower the counter, and
returns an id that is fresh relative to entry. -/
theorem segmentA_spec (st : AState) (imageId n : Nat) :
    (segmentA st imageId n).2.writes = st.writes ∧
    st.nextId ≤ (segmentA st imageId n).2.nextId ∧
    st.nextId ≤ (segmentA st imageId n).1 := by
  have h := combineAllocs_spec n
    (aAlloc (aCopy st imageId).2)
  simp only [segmentA]
  refine ⟨?_, ?_, ?_⟩
  · have := h.1
    simpa [aCopy, aAlloc] using this
  · have := h.2.1
    simp only [aCopy, aAlloc] at this ⊢
    omega
  · have := h.2.2
    simp only [aCopy, aAlloc] at this ⊢
    omega

/-- The `segmentA` as a well-behaved step. -/
theorem segmentA_stepOk (st : AState) (imageId n : Nat) :
    StepOk st (segmentA st imageId n) :=
  ⟨⟨[], by simp [(segmentA_spec st imageId n).1], by simp⟩,
    (segmentA_spec st imageId n).2.1, (segmentA_spec st imageId n).2.2⟩

/-- Every `process_with_mask` call is a well-behaved step on the heap:
no array existing before the call is written and the returned image id
is fresh. -/
theorem processWithMaskA_stepOk (cfg : VisionConfig)
    (seg : Except Unit Nat) (imageId : Nat) (camera_role : CameraRole)
    (ps : AProcState) (st : AState) :
    StepOk st ((processWithMaskA cfg seg imageId camera_role ps st).outId,
      (processWithMaskA cfg seg imageId camera_role ps st).heap) := by
  simp only [processWithMaskA]
  split
  · exact StepOk_comp (aCopy_stepOk st imageId)
      (stabilizeA_stepOk _ _ _ _)
  · split
    · cases seg with
      | ok n =>
          exact StepOk_comp
            (StepOk_comp
              (StepOk_comp (segmentA_stepOk st imageId n)
                (aCopy_stepOk _ _))
              (applyMaskA_stepOk _ imageId))
            (stabilizeA_stepOk _ _ _ _)
      | error e => exact aCopy_stepOk st imageId
    · cases hl : ps.lastMaskId with
      | some mid =>
          simp only [hl]
          exact StepOk_comp (applyMaskA_stepOk st imageId)
            (stabilizeA_stepOk _ _ _ _)
      | none =>
          simp only [hl]
          exact aCopy_stepOk st imageId

/-- A gated-in successful `process_with_mask` call returns the fresh
segmentation mask id (not the cached copy). -/
theorem processWithMaskA_run_ok_maskId (cfg : VisionConfig)
    (n imageId : Nat) (camera_role : CameraRole) (ps : AProcState)
    (st : AState)
    (hibr : useIBR cfg camera_role = true)
    (hrun : ps.frameCount % effectiveSkip cfg = 0) :
    (processWithMaskA cfg (Except.ok n) imageId camera_role ps
      st).maskId = some (segmentA st imageId n).1 := by
  simp [processWithMaskA, hibr, Nat.add_sub_cancel, hrun]

/-- A gated-in successful `process_with_mask` call caches a fresh copy
of the segmentation mask. -/
theorem processWithMaskA_run_ok_procState (cfg : VisionConfig)
    (n imageId : Nat) (camera_role : CameraRole) (ps : AProcState)
    (st : AState)
    (hibr : useIBR cfg camera_role = true)
    (hrun : ps.frameCount % effectiveSkip cfg = 0) :
    (processWithMaskA cfg (Except.ok n) imageId camera_role ps
      st).procState =
      { frameCount := ps.frameCount + 1,
        lastMaskId := some (aCopy (segmentA st imageId n).2
          (segmentA st imageId n).1).1,
        fallbackWarnCount := ps.fallbackWarnCount } := by
  simp [processWithMaskA, hibr, Nat.add_sub_cancel, hrun]

/-- The heap after a gated-in successful `process_with_mask` call. -/
theorem processWithMaskA_run_ok_heap (cfg : VisionConfig)
    (n imageId : Nat) (camera_role : CameraRole) (ps : AProcState)
    (st : AState)
    (hibr : useIBR cfg camera_role = true)
    (hrun : ps.frameCount % effectiveSkip cfg = 0) :
    (processWithMaskA cfg (Except.ok n) imageId camera_role ps st).heap =
      (stabilizeA (roleNeutral cfg camera_role) (roleClahe cfg camera_role)
        (applyMaskA (aCopy (segmentA st imageId n).2
          (segmentA st imageId n).1).2 imageId).2
        (applyMaskA (aCopy (segmentA st imageId n).2
          (segmentA st imageId n).1).2 imageId).1).2 := by
  simp [processWithMaskA, hibr, Nat.add_sub_cancel, hrun]

/-- A skipped `process_with_mask` call with a cache returns the cached
mask id itself. -/
theorem processWithMaskA_skip_maskId (cfg : VisionConfig)
    (seg : Except Unit Nat) (imageId : Nat) (camera_role : CameraRole)
    (ps : AProcState) (st : AState) (mid : Nat)
    (hibr : useIBR cfg camera_role = true)
    (hskip : ps.frameCount % effectiveSkip cfg ≠ 0)
    (hm : ps.lastMaskId = some mid) :
    (processWithMaskA cfg seg imageId camera_role ps st).maskId =
      some mid := by
  simp [processWithMaskA, hibr, Nat.add_sub_cancel, hskip, hm]

/-- C10 amended: no call of `segment`, `process` or `process_with_mask`
writes to any array that existed before the call (inputs are never
mutated); the returned images are freshly allocated, `segment`'s
returned mask is freshly allocated, and the mask a gated-in successful
`process_with_mask` call returns is freshly allocated — but the mask a
skipped `process_with_mask` call returns is the cached mask array
itself, identified by its pre-existing id, not a fresh copy. -/
theorem C10_no_mutation_fresh_outputs (cfg : VisionConfig)
    (seg : Except Unit Nat) (imageId n : Nat) (camera_role : CameraRole)
    (ps : AProcState) (st : AState)
    (himg : imageId < st.nextId) (hw : imageId ∉ st.writes) :
    ((segmentA st imageId n).2.writes = st.writes ∧
      st.nextId ≤ (segmentA st imageId n).1) ∧
    (imageId ∉ (processA cfg seg imageId camera_role ps st).heap.writes ∧
      st.nextId ≤ (processA cfg seg imageId camera_role ps st).outId) ∧
    (imageId ∉
        (processWithMaskA cfg seg imageId camera_role ps st).heap.writes ∧
      st.nextId ≤
        (processWithMaskA cfg seg imageId camera_role ps st).outId) ∧
    (useIBR cfg camera_role = true →
      ps.frameCount % effectiveSkip cfg = 0 →
      ∀ n2, ∃ mid,
        (processWithMaskA cfg (Except.ok n2) imageId camera_role ps
          st).maskId = some mid ∧ st.nextId ≤ mid) ∧
    (useIBR cfg camera_role = true →
      ps.frameCount % effectiveSkip cfg ≠ 0 →
      ∀ mid0, ps.lastMaskId = some mid0 →
        (processWithMaskA cfg seg imageId camera_role ps st).maskId =
          some mid0) := by
  obtain ⟨⟨l, hwr, hl⟩, _, hout⟩ :=
    processWithMaskA_stepOk cfg seg imageId camera_role ps st
  have hnotin :
      imageId ∉ (processWithMaskA cfg seg imageId camera_role ps
        st).heap.writes := by
    rw [hwr]
    intro hmem
    rcases List.mem_append.mp hmem with h | h
    · exact hw h
    · exact absurd (hl _ h) (by omega)
  refine ⟨⟨(segmentA_spec st imageId n).1,
      (segmentA_spec st imageId n).2.2⟩,
    ⟨hnotin, hout⟩, ⟨hnotin, hout⟩, ?_, ?_⟩
  · intro hibr hrun n2
    exact ⟨(segmentA st imageId n2).1,
      processWithMaskA_run_ok_maskId cfg n2 imageId camera_role ps st
        hibr hrun,
      (segmentA_spec st imageId n2).2.2⟩
  · intro hibr hskip mid0 hm
    exact processWithMaskA_skip_maskId cfg seg imageId camera_role ps st
      mid0 hibr hskip hm

/-- Witness for C10 amended: default configuration, GRIPPER role, fresh
instance, heap with one pre-existing array (the input, id 0). -/
theorem C10_no_mutation_fresh_outputs_witness :
    ((0 : Nat) < ({ nextId := 1, writes := [] } : AState).nextId ∧
      (0 : Nat) ∉ ({ nextId := 1, writes := [] } : AState).writes) ∧
    (((segmentA { nextId := 1, writes := [] } 0 1).2.writes =
        ({ nextId := 1, writes := [] } : AState).writes ∧
      ({ nextId := 1, writes := [] } : AState).nextId ≤
        (segmentA { nextId := 1, writes := [] } 0 1).1) ∧
    ((0 : Nat) ∉ (processA cfgDefault (Except.ok 1) 0 CameraRole.GRIPPER
        AProcState.init { nextId := 1, writes := [] }).heap.writes ∧
      ({ nextId := 1, writes := [] } : AState).nextId ≤
        (processA cfgDefault (Except.ok 1) 0 CameraRole.GRIPPER
          AProcState.init { nextId := 1, writes := [] }).outId) ∧
    ((0 : Nat) ∉ (processWithMaskA cfgDefault (Except.ok 1) 0
        CameraRole.GRIPPER AProcState.init
        { nextId := 1, writes := [] }).heap.writes ∧
      ({ nextId := 1, writes := [] } : AState).nextId ≤
        (processWithMaskA cfgDefault (Except.ok 1) 0 CameraRole.GRIPPER
          AProcState.init { nextId := 1, writes := [] }).outId) ∧
    (useIBR cfgDefault CameraRole.GRIPPER = true →
      AProcState.init.frameCount % effectiveSkip cfgDefault = 0 →
      ∀ n2, ∃ mid,
        (processWithMaskA cfgDefault (Except.ok n2) 0 CameraRole.GRIPPER
          AProcState.init { nextId := 1, writes := [] }).maskId =
            some mid ∧
          ({ nextId := 1, writes := [] } : AState).nextId ≤ mid) ∧
    (useIBR cfgDefault CameraRole.GRIPPER = true →
      AProcState.init.frameCount % effectiveSkip cfgDefault ≠ 0 →
      ∀ mid0, AProcState.init.lastMaskId = some mid0 →
        (processWithMaskA cfgDefault (Except.ok 1) 0 CameraRole.GRIPPER
          AProcState.init { nextId := 1, writes := [] }).maskId =
            some mid0)) :=
  ⟨⟨by decide, by decide⟩,
    C10_no_mutation_fresh_outputs cfgDefault (Except.ok 1) 0 1
      CameraRole.GRIPPER AProcState.init { nextId := 1, writes := [] }
      (by decide) (by decide)⟩

/-- C10 counterexample: on a fresh instance (default configuration,
frame skip 2) call 1 is gated in, allocates the segmentation mask and
caches a copy with id 4, leaving the heap allocation counter at 7; the
skipped call 2 then returns mask id 4 — an array allocated during the
previous call (4 < 7, the counter at entry of call 2) — so the mask
returned by a skipped `process_with_mask` call is not a freshly
allocated array. -/
theorem C10_counterexample_stale_mask :
    (processWithMaskA cfgDefault (Except.ok 1) 0 CameraRole.GRIPPER
      AProcState.init { nextId := 1, writes := [] }).procState =
      { frameCount := 1, lastMaskId := some 4,
        fallbackWarnCount := 0 } ∧
    (processWithMaskA cfgDefault (Except.ok 1) 0 CameraRole.GRIPPER
      AProcState.init { nextId := 1, writes := [] }).heap =
      { nextId := 7, writes := [5] } ∧
    (processWithMaskA cfgDefault (Except.ok 1) 0 CameraRole.GRIPPER
      { frameCount := 1, lastMaskId := some 4, fallbackWarnCount := 0 }
      { nextId := 7, writes := [5] }).maskId = some 4 ∧
    4 < 7 := by
  have hn : roleNeutral cfgDefault CameraRole.GRIPPER = true := by
    norm_num [roleNeutral, roleBrightnessParams, cfgDefault, ratAbs]
  refine ⟨?_, ?_, ?_, by decide⟩
  · rw [processWithMaskA_run_ok_procState cfgDefault 1 0
      CameraRole.GRIPPER AProcState.init { nextId := 1, writes := [] }
      rfl (by decide)]
    rfl
  · rw [processWithMaskA_run_ok_heap cfgDefault 1 0 CameraRole.GRIPPER
      AProcState.init { nextId := 1, writes := [] } rfl (by decide),
      hn, show roleClahe cfgDefault CameraRole.GRIPPER = false from rfl]
    rfl
  · exact processWithMaskA_skip_maskId cfgDefault (Except.ok 1) 0
      CameraRole.GRIPPER
      { frameCount := 1, lastMaskId := some 4, fallbackWarnCount := 0 }
      { nextId := 7, writes := [5] } 4 rfl (by decide) rfl

end LerobotIBR
